import Mathlib

/-!
# Verification of the yt-automation upload orchestration core

Shallow embedding of the upload-queue Job Store (`queue_db.py`), the quota
allocator, and the upload pipeline (`scheduler.py: process_upload_job`).

Modelling conventions:
* Timestamps are integers (seconds).  The source stores ISO-8601 strings and
  compares them lexicographically; on UTC ISO strings that order agrees with
  chronological order, so an order-embedding into `ℤ` is faithful.
* `sqlite` rows become Lean structures; a table becomes a list of rows.
* The several `datetime.now()` reads inside one function call are modelled as
  a single instant `now`.
* SHA-256 in the idempotency key is modelled as the injective encoding
  `hash ++ ":" ++ dest` (the source hashes exactly that preimage string).
* External collaborators (sheet row store, downloader, ffmpeg, validator,
  upload adapter) are modelled by their results, supplied in a `PipelineEnv`;
  their calls have no effect on the Job Store.
* Python floats in the config (`RETRY_BACKOFF_BASE = 2.0`,
  `QUOTA_SAFETY_MARGIN = 0.8`) are exact small decimals, modelled as `ℤ`/`ℚ`;
  `int(x)` is truncation toward zero (`Int.tdiv` on a rational).
-/

namespace YtAutomation

/-! ## Configuration (`scheduler_config.py`)

Hard-coded module constants are Lean constants; environment-configurable
values are fields of `Config` so theorems quantify over them. -/

/-- `scheduler_config.MAX_UPLOAD_ATTEMPTS` (hard-coded `3`). -/
def MAX_UPLOAD_ATTEMPTS : Nat := 3

/-- `scheduler_config.RETRY_BACKOFF_BASE` (hard-coded `2.0` seconds). -/
def RETRY_BACKOFF_BASE : ℤ := 2

/-- `scheduler_config.UPLOADS_PER_DAY_PER_DEST` (hard-coded `2`). -/
def UPLOADS_PER_DAY_PER_DEST : Nat := 2

/-- Environment-configurable parts of `scheduler_config.py` used by the core. -/
structure Config where
  /-- `UPLOAD_SLOTS_LOCAL`: daily (hour, minute) slots in the display timezone. -/
  upload_slots_local : List (Nat × Nat)
  /-- Offset of `DISPLAY_TIMEZONE` east of UTC, in seconds (Asia/Kolkata: 19800). -/
  tz_offset_seconds : ℤ
  /-- `YT_QUOTA_LIMIT_PER_PROJECT`. -/
  yt_quota_limit_per_project : ℤ
  /-- Numerator of `QUOTA_SAFETY_MARGIN` (a Python float, exact as a
  fraction; the default `0.8` is `4/5`). -/
  quota_safety_margin_num : ℤ
  /-- Denominator of `QUOTA_SAFETY_MARGIN` (positive). -/
  quota_safety_margin_den : ℤ
  /-- `YT_QUOTA_UNITS_PER_UPLOAD`. -/
  yt_quota_units_per_upload : ℤ
  /-- Keys of the `YT_PROJECT_KEYS` dict, in iteration order. -/
  yt_project_keys : List String

/-! ## Job Store rows (`queue_db.py` schema) -/

/-- One row of the `upload_queue` table (the surrogate `id` is omitted: all
operations below act on a single fixed row). -/
structure JobRow where
  source_tab : String
  sheet_row : Nat
  row_id : Nat
  priority_score : ℤ
  scraped_date : String
  dest_account_id : String
  status : String
  retry_count : Nat
  next_attempt_after : Option ℤ
  created_at : ℤ
  updated_at : ℤ
  error_msg : Option String
deriving DecidableEq

/-! ## Job Store operations (`queue_db.py`) -/

/-- `queue_db.enqueue`: `INSERT OR IGNORE` into `upload_queue`, which has
`UNIQUE(source_tab, row_id)`.  Returns `(inserted, table)` — the source
returns `conn.total_changes > 0` on a fresh connection. -/
def enqueue (now : ℤ) (source_tab : String) (sheet_row : Nat) (row_id : Nat)
    (priority_score : ℤ) (scraped_date : String) (dest_account_id : String)
    (table : List JobRow) : Bool × List JobRow :=
  if table.any (fun j => j.source_tab == source_tab && j.row_id == row_id) then
    (false, table)
  else
    (true, table ++ [{ source_tab, sheet_row, row_id, priority_score, scraped_date,
                       dest_account_id, status := "QUEUED", retry_count := 0,
                       next_attempt_after := none, created_at := now,
                       updated_at := now, error_msg := none }])

/-- The `WHERE` clause of `queue_db.get_next_jobs`: a job is due for dispatch
iff it is `QUEUED` and its `next_attempt_after` is null or has passed. -/
def job_due (now : ℤ) (j : JobRow) : Bool :=
  j.status == "QUEUED" &&
    (match j.next_attempt_after with
     | none => true
     | some t => decide (t ≤ now))

/-- `queue_db.mark_in_progress`. -/
def mark_in_progress (now : ℤ) (j : JobRow) : JobRow :=
  { j with status := "IN_PROGRESS", updated_at := now }

/-- `queue_db.mark_completed`. -/
def mark_completed (now : ℤ) (j : JobRow) : JobRow :=
  { j with status := "COMPLETED", updated_at := now }

/-- The exponential backoff delay computed inside `queue_db.mark_failed`:
`RETRY_BACKOFF_BASE * (3 ** (retry_count - 1))` seconds. -/
def retry_backoff_delay (retry_count : Nat) : ℤ :=
  RETRY_BACKOFF_BASE * 3 ^ (retry_count - 1)

/-- `queue_db.mark_failed(id, error_msg, max_retries)`: increments
`retry_count`; if still below `max_retries`, re-queues with
`next_attempt_after = now + backoff`; otherwise sets terminal `FAILED`
(leaving `next_attempt_after` untouched, as the source `UPDATE` does). -/
def mark_failed (now : ℤ) (error_msg : String) (max_retries : Nat) (j : JobRow) : JobRow :=
  let retry_count := j.retry_count + 1
  if retry_count < max_retries then
    { j with status := "QUEUED", retry_count := retry_count,
             next_attempt_after := some (now + retry_backoff_delay retry_count),
             error_msg := some error_msg, updated_at := now }
  else
    { j with status := "FAILED", retry_count := retry_count,
             error_msg := some error_msg, updated_at := now }

/-- `queue_db.requeue_at(id, when)`: back to `QUEUED` with
`next_attempt_after` set; `retry_count` is not touched. -/
def requeue_at (now : ℤ) (when_ts : ℤ) (j : JobRow) : JobRow :=
  { j with status := "QUEUED", next_attempt_after := some when_ts, updated_at := now }

/-- `queue_db.check_idempotency`: membership in the `idempotency_keys` table. -/
def check_idempotency (idem_keys : List String) (k : String) : Bool :=
  decide (k ∈ idem_keys)

/-- `queue_db.record_idempotency`: `INSERT OR IGNORE` of the key. -/
def record_idempotency (k : String) (idem_keys : List String) : List String :=
  if k ∈ idem_keys then idem_keys else k :: idem_keys

/-- `queue_db.record_upload` restricted to one (destination, date): the
`daily_uploads` table is `UNIQUE(dest_account_id, upload_date, row_id)`, so
today's rows for the job's destination are a duplicate-free list of row ids. -/
def record_upload (row_id : Nat) (daily_rows : List Nat) : List Nat :=
  if row_id ∈ daily_rows then daily_rows else row_id :: daily_rows

/-! ## Quota allocator (`queue_db.py`, quota section) -/

/-- The margin-adjusted daily limit used by `queue_db.get_quota_remaining`:
`int(YT_QUOTA_LIMIT_PER_PROJECT * QUOTA_SAFETY_MARGIN)` — the limit times the
safety-margin fraction, truncated toward zero as Python `int()` does
(`Int.tdiv`). -/
def quota_limit (cfg : Config) : ℤ :=
  Int.tdiv (cfg.yt_quota_limit_per_project * cfg.quota_safety_margin_num)
    cfg.quota_safety_margin_den

/-- `queue_db.get_quota_remaining(project_id)` where `used` is the
`units_used` recorded today for the project (0 if no row): `max(0, limit - used)`. -/
def get_quota_remaining (cfg : Config) (used : ℤ) : ℤ :=
  max 0 (quota_limit cfg - used)

/-- The loop body of `queue_db.get_cheapest_project`: keep the incumbent
unless this project has strictly more remaining quota. -/
def cheapest_step (cfg : Config) (usage : String → ℤ)
    (acc : Option String × ℤ) (pid : String) : Option String × ℤ :=
  let remaining := get_quota_remaining cfg (usage pid)
  if remaining > acc.2 then (some pid, remaining) else acc

/-- `queue_db.get_cheapest_project()`: with no configured projects returns
`"default"`; otherwise scans for the project with the most remaining quota
(initial best `(None, -1)`), and returns `None` if the best remaining is
below one upload's unit cost. -/
def get_cheapest_project (cfg : Config) (projects : List String)
    (usage : String → ℤ) : Option String :=
  if projects = [] then
    some "default"
  else
    let best := projects.foldl (cheapest_step cfg usage) (none, -1)
    if best.2 < cfg.yt_quota_units_per_upload then none else best.1

/-- `queue_db.record_quota_usage(project_id, units)`: non-positive `units`
are replaced by `YT_QUOTA_UNITS_PER_UPLOAD`, then upsert-added to today's row. -/
def record_quota_usage (cfg : Config) (project_id : String) (units : ℤ)
    (usage : String → ℤ) : String → ℤ :=
  let units := if units ≤ 0 then cfg.yt_quota_units_per_upload else units
  fun p => if p = project_id then usage p + units else usage p

/-! ## Destination cleanup jobs (`queue_db.py`, cleanup section) -/

/-- One row of the `destination_cleanup_jobs` table (surrogate id omitted). -/
structure CleanupJob where
  dest_account_id : String
  status : String
  attempt_count : Nat
  next_attempt_after : Option ℤ
  last_error : Option String
  rows_cleared_total : ℤ
  mappings_disabled_total : ℤ
  queue_canceled_total : ℤ
  remove_account_after_cleanup : Bool
  updated_at : ℤ
deriving DecidableEq

/-- The per-attempt progress counters dict passed by the cleanup worker;
missing keys read as 0 (`int(counters.get(key, 0) or 0)`). -/
structure CleanupCounters where
  rows_cleared : ℤ
  mappings_disabled : ℤ
  queue_canceled : ℤ
deriving DecidableEq

/-- `counters = counters or {}` with per-key default 0. -/
def counters_or_zero (c : Option CleanupCounters) : CleanupCounters :=
  c.getD { rows_cleared := 0, mappings_disabled := 0, queue_canceled := 0 }

/-- `queue_db.reschedule_destination_cleanup`: back to `QUEUED` with backoff
timestamp, recording the error and **adding** this attempt's counters to the
cumulative totals. -/
def reschedule_destination_cleanup (now : ℤ) (error_msg : String)
    (next_attempt_after : ℤ) (counters : Option CleanupCounters)
    (j : CleanupJob) : CleanupJob :=
  let c := counters_or_zero counters
  { j with status := "QUEUED",
           next_attempt_after := some next_attempt_after,
           last_error := some error_msg,
           rows_cleared_total := j.rows_cleared_total + c.rows_cleared,
           mappings_disabled_total := j.mappings_disabled_total + c.mappings_disabled,
           queue_canceled_total := j.queue_canceled_total + c.queue_canceled,
           updated_at := now }

/-- `queue_db.complete_destination_cleanup`: terminal `COMPLETED`, clearing
the schedule and error but still **adding** the final attempt's counters. -/
def complete_destination_cleanup (now : ℤ) (counters : Option CleanupCounters)
    (j : CleanupJob) : CleanupJob :=
  let c := counters_or_zero counters
  { j with status := "COMPLETED",
           next_attempt_after := none,
           last_error := none,
           rows_cleared_total := j.rows_cleared_total + c.rows_cleared,
           mappings_disabled_total := j.mappings_disabled_total + c.mappings_disabled,
           queue_canceled_total := j.queue_canceled_total + c.queue_canceled,
           updated_at := now }

/-! ## Fixed daily slots (`scheduler.py: _slot_times_for_day`, `_next_slot_time`) -/

/-- UTC time of one local slot `(hour, minute)` on local day `day`
(days and seconds since the local epoch; UTC = local − tz offset). -/
def slot_utc (cfg : Config) (day : ℤ) (hm : Nat × Nat) : ℤ :=
  day * 86400 + (hm.1 : ℤ) * 3600 + (hm.2 : ℤ) * 60 - cfg.tz_offset_seconds

/-- `scheduler._slot_times_for_day`: all of a local day's slots in UTC. -/
def slot_times_for_day (cfg : Config) (day : ℤ) : List ℤ :=
  cfg.upload_slots_local.map (slot_utc cfg day)

/-- The local calendar day containing instant `now` (floor division; `ℤ`'s
`/` is Euclidean division, which is floor division for a positive divisor). -/
def local_day (cfg : Config) (now : ℤ) : ℤ :=
  (now + cfg.tz_offset_seconds) / 86400

/-- `scheduler._next_slot_time(uploads_today)`: the required slot for the
next upload — today's slot indexed by `uploads_today` if one remains (capped
by `UPLOADS_PER_DAY_PER_DEST`), else tomorrow's first slot, with a 24-hour
fallback when no slots are configured. -/
def next_slot_time (cfg : Config) (now : ℤ) (uploads_today : Nat) : ℤ :=
  let today_slots := slot_times_for_day cfg (local_day cfg now)
  let max_slots_today := min today_slots.length UPLOADS_PER_DAY_PER_DEST
  if h : uploads_today < max_slots_today then
    today_slots.get ⟨uploads_today, lt_of_lt_of_le h (min_le_left _ _)⟩
  else
    (slot_times_for_day cfg (local_day cfg now + 1)).headD (now + 24 * 3600)

/-! ## The upload pipeline (`scheduler.py: process_upload_job`) -/

/-- The sheet row read back for the job (`sheet_manager.read_row`), reduced
to the fields the pipeline's control flow consumes; string fields are the
already-stripped values. -/
structure SheetRowData where
  source_url : String
  content_hash : String
  upload_attempts : Nat
deriving DecidableEq

/-- The upload adapter's result (`uploader` interface). -/
structure UploadOutcome where
  success : Bool
  retryable : Bool
  error : String
deriving DecidableEq

/-- Results of all external-collaborator calls made during one
`process_upload_job` invocation, plus the clock. -/
structure PipelineEnv where
  now : ℤ
  /-- The optimistic `READY_TO_UPLOAD → IN_PROGRESS` sheet transition succeeded. -/
  lock_ok : Bool
  row_data : Option SheetRowData
  /-- `get_uploaded_hashes_for_dest` did not raise (on exception the
  duplicate check is skipped with a warning). -/
  dup_check_ok : Bool
  /-- Hashes uploaded to this destination in the 30-day lookback window. -/
  recent_hashes : List String
  download_ok : Bool
  download_error : String
  ffmpeg_ok : Bool
  ffmpeg_error : String
  validation_ok : Bool
  validation_error : String
  has_uploader : Bool
  platform : String
  upload : UploadOutcome

/-- The Job Store state touched by one pipeline run: the job's own queue row,
the idempotency-key table, today's `daily_uploads` row ids for the job's
destination, and today's quota usage per project. -/
structure StoreState where
  job : JobRow
  idem_keys : List String
  daily_rows : List Nat
  quota_used : String → ℤ

/-- The result dict of `process_upload_job` plus the final store state and
whether the upload adapter was invoked. -/
structure PipelineResult where
  status : String
  error : String
  upload_called : Bool
  store : StoreState

/-- The idempotency key: `sha256(f"{expected_hash}:{dest_account_id}")`,
modelled as the (injective) preimage string. -/
def idem_key_of (expected_hash dest_account_id : String) : String :=
  expected_hash ++ ":" ++ dest_account_id

/-- `scheduler.process_upload_job`, step for step.  Sheet-side writes
(`update_row_status`, `mark_upload_error`, audit notes) are external-
collaborator effects and do not touch the Job Store; the spacing step only
sleeps.  `mark_failed` call sites reproduce the source's `max_retries`
arguments: default `3`, `scheduler_config.MAX_UPLOAD_ATTEMPTS`, or `0`. -/
def process_upload_job (cfg : Config) (env : PipelineEnv) (st₀ : StoreState) :
    PipelineResult :=
  let st := { st₀ with job := mark_in_progress env.now st₀.job }
  if ¬ env.lock_ok then
    { status := "error", error := "status_conflict", upload_called := false,
      store := { st with job := mark_failed env.now "status_conflict" 0 st.job } }
  else
    match env.row_data with
    | none =>
      { status := "error", error := "row_not_found", upload_called := false,
        store := { st with job := mark_failed env.now "row_not_found" 3 st.job } }
    | some rd =>
      if rd.source_url = "" then
        { status := "error", error := "no_source_url", upload_called := false,
          store := { st with job := mark_failed env.now "no_source_url" 3 st.job } }
      else if st.job.dest_account_id = "" then
        { status := "error", error := "no_destination_mapped", upload_called := false,
          store := { st with job := mark_failed env.now "no_destination_mapped" 3 st.job } }
      else if MAX_UPLOAD_ATTEMPTS ≤ rd.upload_attempts then
        { status := "error", error := "max_attempts_reached", upload_called := false,
          store := { st with job := mark_failed env.now "max_attempts_reached" 0 st.job } }
      else
        let idem_key := idem_key_of rd.content_hash st.job.dest_account_id
        if rd.content_hash ≠ "" ∧ check_idempotency st.idem_keys idem_key then
          { status := "skipped_idempotency", error := "", upload_called := false,
            store := { st with job := mark_completed env.now st.job } }
        else if env.dup_check_ok ∧ rd.content_hash ≠ "" ∧
            rd.content_hash ∈ env.recent_hashes then
          { status := "error", error := "duplicate_for_destination", upload_called := false,
            store := { st with
              job := mark_failed env.now "duplicate_for_destination" 3 st.job } }
        else
          -- Step 4 (spacing) only sleeps; Step 4b: fixed daily slots & cap.
          let uploads_today := st.daily_rows.length
          let slot_time := next_slot_time cfg env.now uploads_today
          if env.now < slot_time then
            { status := "deferred_slot_wait", error := "", upload_called := false,
              store := { st with job := requeue_at env.now slot_time st.job } }
          else if UPLOADS_PER_DAY_PER_DEST ≤ uploads_today then
            { status := "deferred_slot_cap", error := "", upload_called := false,
              store := { st with
                job := requeue_at env.now (next_slot_time cfg env.now uploads_today) st.job } }
          else if ¬ env.download_ok then
            let err := "download_failed: " ++ env.download_error
            { status := "error", error := err, upload_called := false,
              store := { st with job := mark_failed env.now err MAX_UPLOAD_ATTEMPTS st.job } }
          else if ¬ env.ffmpeg_ok then
            let err := "ffmpeg_failed: " ++ env.ffmpeg_error
            { status := "error", error := err, upload_called := false,
              store := { st with job := mark_failed env.now err MAX_UPLOAD_ATTEMPTS st.job } }
          else if ¬ env.validation_ok then
            let err := "validation_failed: " ++ env.validation_error
            { status := "error", error := err, upload_called := false,
              store := { st with job := mark_failed env.now err MAX_UPLOAD_ATTEMPTS st.job } }
          else if ¬ env.has_uploader then
            let err := "no_uploader_for_" ++ st.job.dest_account_id
            { status := "error", error := err, upload_called := false,
              store := { st with job := mark_failed env.now err 3 st.job } }
          else
            let project := get_cheapest_project cfg cfg.yt_project_keys st.quota_used
            if env.platform = "youtube" ∧ project = none then
              { status := "error", error := "youtube_quota_exhausted", upload_called := false,
                store := { st with
                  job := mark_failed env.now "youtube_quota_exhausted" 0 st.job } }
            else if env.upload.success then
              { status := "uploaded", error := "", upload_called := true,
                store := { st with
                  job := mark_completed env.now st.job,
                  daily_rows := record_upload st.job.row_id st.daily_rows,
                  idem_keys := record_idempotency idem_key st.idem_keys,
                  quota_used :=
                    if env.platform = "youtube" then
                      record_quota_usage cfg (project.getD "default")
                        cfg.yt_quota_units_per_upload st.quota_used
                    else st.quota_used } }
            else if ¬ env.upload.retryable then
              { status := "error", error := env.upload.error, upload_called := true,
                store := { st with job := mark_failed env.now env.upload.error 0 st.job } }
            else
              { status := "error", error := env.upload.error, upload_called := true,
                store := { st with
                  job := mark_failed env.now env.upload.error MAX_UPLOAD_ATTEMPTS st.job } }

/-! ## Concrete instances used by witnesses and counterexamples -/

/-- A concrete configuration: one daily slot at local midnight, zero timezone
offset, the default quota numbers, one configured quota pool. -/
def sample_cfg : Config :=
  { upload_slots_local := [(0, 0)], tz_offset_seconds := 0,
    yt_quota_limit_per_project := 10000, quota_safety_margin_num := 4,
    quota_safety_margin_den := 5,
    yt_quota_units_per_upload := 1600, yt_project_keys := ["p1"] }

/-- A concrete fresh queue row. -/
def sample_job : JobRow :=
  { source_tab := "tab", sheet_row := 2, row_id := 7, priority_score := 0,
    scraped_date := "", dest_account_id := "d", status := "QUEUED",
    retry_count := 0, next_attempt_after := none, created_at := 0,
    updated_at := 0, error_msg := none }

/-- A concrete sheet row with everything present. -/
def sample_row : SheetRowData :=
  { source_url := "u", content_hash := "h", upload_attempts := 0 }

/-- A concrete environment in which every external step succeeds at `now = 0`
(which is exactly the single configured slot of `sample_cfg`). -/
def sample_env : PipelineEnv :=
  { now := 0, lock_ok := true, row_data := some sample_row, dup_check_ok := true,
    recent_hashes := [], download_ok := true, download_error := "",
    ffmpeg_ok := true, ffmpeg_error := "", validation_ok := true,
    validation_error := "", has_uploader := true, platform := "youtube",
    upload := { success := true, retryable := true, error := "" } }

/-- A concrete fresh store state. -/
def sample_store : StoreState :=
  { job := sample_job, idem_keys := [], daily_rows := [], quota_used := fun _ => 0 }

/-- A concrete in-progress cleanup job with zeroed totals. -/
def sample_cleanup_job : CleanupJob :=
  { dest_account_id := "d", status := "IN_PROGRESS", attempt_count := 1,
    next_attempt_after := none, last_error := none, rows_cleared_total := 0,
    mappings_disabled_total := 0, queue_canceled_total := 0,
    remove_account_after_cleanup := true, updated_at := 0 }

/-- Progress of a failed first cleanup attempt: 3 of 5 queued jobs canceled. -/
def sample_counters₁ : CleanupCounters :=
  { rows_cleared := 4, mappings_disabled := 1, queue_canceled := 3 }

/-- Progress of the completing cleanup attempt: the remaining 2 cancellations. -/
def sample_counters₂ : CleanupCounters :=
  { rows_cleared := 0, mappings_disabled := 0, queue_canceled := 2 }

/-- Today's quota usage for the spec's two-pool scenario: pool `"A"` has used
its whole margin-adjusted budget (8000 units), pool `"B"` nothing. -/
def sample_usage : String → ℤ :=
  fun p => if p = "A" then 8000 else 0

/-- A sheet row whose content fingerprint is the empty string. -/
def empty_hash_row : SheetRowData :=
  { source_url := "u", content_hash := "", upload_attempts := 0 }

/-- Environment of a job carrying an empty content fingerprint. -/
def empty_hash_env : PipelineEnv :=
  { sample_env with row_data := some empty_hash_row }

/-- Store in which the idempotency key of (empty fingerprint, destination
`"d"`) is already recorded completed. -/
def empty_hash_store : StoreState :=
  { sample_store with idem_keys := [idem_key_of "" "d"] }

/-- Store in which the idempotency key of `sample_row`'s fingerprint and
destination `"d"` is already recorded completed. -/
def recorded_key_store : StoreState :=
  { sample_store with idem_keys := [idem_key_of "h" "d"] }

/-- Environment in which the job's fingerprint was already uploaded to the
destination within the lookback window. -/
def dup_env : PipelineEnv :=
  { sample_env with recent_hashes := ["h"] }

/-- Environment of a job whose sheet row has no source url. -/
def missing_url_env : PipelineEnv :=
  { sample_env with
    row_data := some { source_url := "", content_hash := "h", upload_attempts := 0 } }

/-- Store of a job with no destination mapped. -/
def missing_dest_store : StoreState :=
  { sample_store with job := { sample_job with dest_account_id := "" } }

/-- Store in which the single configured pool `"p1"` has already used its
whole margin-adjusted budget, so every pool is exhausted. -/
def quota_exhausted_store : StoreState :=
  { sample_store with quota_used := fun _ => 8000 }

/-- Store whose destination has already uploaded `UPLOADS_PER_DAY_PER_DEST`
(= 2) items today. -/
def capped_store : StoreState :=
  { sample_store with daily_rows := [1, 2] }

end YtAutomation

namespace YtAutomation

/-! ## Theorems -/

/-- **C3** — For every existing job, `mark_failed` increments `retry_count` by
exactly one; if the incremented count is below `max_retries` the job returns to
`QUEUED` with `next_attempt_after = now + base * growth^(retry_count - 1)`
(base 2, growth 3), a delay strictly increasing in `retry_count`; otherwise the
status becomes terminal `FAILED` (and the job is never again due for dispatch,
so the stale `next_attempt_after` is irrelevant). -/
theorem c3_mark_failed_backoff (j : JobRow) (now : ℤ) (err : String) (mr : Nat) :
    (mark_failed now err mr j).retry_count = j.retry_count + 1 ∧
    (j.retry_count + 1 < mr →
      (mark_failed now err mr j).status = "QUEUED" ∧
      (mark_failed now err mr j).next_attempt_after
        = some (now + retry_backoff_delay (j.retry_count + 1))) ∧
    (mr ≤ j.retry_count + 1 →
      (mark_failed now err mr j).status = "FAILED" ∧
      ∀ t : ℤ, job_due t (mark_failed now err mr j) = false) ∧
    (∀ k : Nat, 1 ≤ k → retry_backoff_delay k < retry_backoff_delay (k + 1)) := by
  refine ⟨?_, ?_, ?_, ?_⟩
  · unfold mark_failed
    by_cases h : j.retry_count + 1 < mr <;> simp [h]
  · intro h
    simp [mark_failed, h]
  · intro h
    have h' : ¬ (j.retry_count + 1 < mr) := not_lt.mpr h
    refine ⟨by simp [mark_failed, h'], fun t => ?_⟩
    simp [mark_failed, h', job_due]
  · intro k hk
    have h3 : (0 : ℤ) < 3 ^ (k - 1) := pow_pos (by norm_num) _
    have hsub : k + 1 - 1 = (k - 1) + 1 := by omega
    calc retry_backoff_delay k = 2 * 3 ^ (k - 1) := rfl
      _ < 2 * (3 ^ (k - 1) * 3) := by nlinarith
      _ = 2 * 3 ^ ((k - 1) + 1) := by rw [pow_succ]
      _ = retry_backoff_delay (k + 1) := by
            unfold retry_backoff_delay RETRY_BACKOFF_BASE
            rw [hsub]

/-- Witness for C3: a fresh job failed with `max_retries = 3` is re-queued
(first failure), and after the third failure its status is `FAILED` —
the spec's three-failure scenario. -/
theorem c3_mark_failed_backoff_witness :
    (mark_failed 10 "e1" 3 sample_job).status = "QUEUED" ∧
    (mark_failed 10 "e1" 3 sample_job).next_attempt_after
      = some (10 + retry_backoff_delay 1) ∧
    (mark_failed 30 "e3" 3 (mark_failed 20 "e2" 3
      (mark_failed 10 "e1" 3 sample_job))).status = "FAILED" :=
  ⟨((c3_mark_failed_backoff sample_job 10 "e1" 3).2.1 (by decide)).1,
   ((c3_mark_failed_backoff sample_job 10 "e1" 3).2.1 (by decide)).2,
   ((c3_mark_failed_backoff
      (mark_failed 20 "e2" 3 (mark_failed 10 "e1" 3 sample_job))
      30 "e3" 3).2.2.1 (by decide)).1⟩

/-- **C2** — For a candidate whose `(source_tab, row_id)` is not yet in the
table, the first `enqueue` inserts and returns `true`; any repeated call for
the same `(source_tab, row_id)` is a no-op returning `false`; exactly one row
with that key exists afterwards (in particular at most one `QUEUED` one). -/
theorem c2_enqueue_at_most_once (now now₂ : ℤ) (tab : String) (shr shr₂ rid : Nat)
    (prio prio₂ : ℤ) (sd sd₂ dest dest₂ : String) (table : List JobRow)
    (h : ∀ j ∈ table, ¬ (j.source_tab = tab ∧ j.row_id = rid)) :
    (enqueue now tab shr rid prio sd dest table).1 = true ∧
    enqueue now₂ tab shr₂ rid prio₂ sd₂ dest₂ (enqueue now tab shr rid prio sd dest table).2
      = (false, (enqueue now tab shr rid prio sd dest table).2) ∧
    ((enqueue now tab shr rid prio sd dest table).2.countP
      (fun j => decide (j.source_tab = tab ∧ j.row_id = rid))) = 1 := by
  have hno : ¬ ∃ x ∈ table, x.source_tab = tab ∧ x.row_id = rid := by
    rintro ⟨x, hx, hp⟩
    exact h x hx hp
  have hz : List.countP (fun j => decide (j.source_tab = tab) && decide (j.row_id = rid))
      table = 0 := by
    simp only [List.countP_eq_zero, Bool.and_eq_true, decide_eq_true_eq]
    intro a ha hpa
    exact h a ha hpa
  refine ⟨by simp [enqueue, hno], ?_, ?_⟩
  · simp [enqueue, hno]
  · simp [enqueue, hno, List.countP_append, hz]

/-- Witness for C2 at the empty table. -/
theorem c2_enqueue_at_most_once_witness :
    (enqueue 0 "tab" 2 7 0 "" "d" []).1 = true ∧
    enqueue 1 "tab" 3 7 5 "x" "e" (enqueue 0 "tab" 2 7 0 "" "d" []).2
      = (false, (enqueue 0 "tab" 2 7 0 "" "d" []).2) ∧
    ((enqueue 0 "tab" 2 7 0 "" "d" []).2.countP
      (fun j => decide (j.source_tab = "tab" ∧ j.row_id = 7))) = 1 :=
  c2_enqueue_at_most_once 0 1 "tab" 2 3 7 0 5 "" "x" "d" "e" [] (by simp)

/-- **C9** — Destination-cleanup progress counters are cumulative: a
reschedule and a subsequent completion each add that attempt's (non-negative)
increments to the stored totals and never reset them, so the totals are
monotonically non-decreasing across the whole retry sequence. -/
theorem c9_cleanup_counters_cumulative (j : CleanupJob) (now₁ now₂ next : ℤ)
    (err : String) (c₁ c₂ : Option CleanupCounters)
    (h₁ : 0 ≤ (counters_or_zero c₁).rows_cleared ∧
          0 ≤ (counters_or_zero c₁).mappings_disabled ∧
          0 ≤ (counters_or_zero c₁).queue_canceled)
    (h₂ : 0 ≤ (counters_or_zero c₂).rows_cleared ∧
          0 ≤ (counters_or_zero c₂).mappings_disabled ∧
          0 ≤ (counters_or_zero c₂).queue_canceled) :
    (reschedule_destination_cleanup now₁ err next c₁ j).rows_cleared_total
        = j.rows_cleared_total + (counters_or_zero c₁).rows_cleared ∧
    (reschedule_destination_cleanup now₁ err next c₁ j).mappings_disabled_total
        = j.mappings_disabled_total + (counters_or_zero c₁).mappings_disabled ∧
    (reschedule_destination_cleanup now₁ err next c₁ j).queue_canceled_total
        = j.queue_canceled_total + (counters_or_zero c₁).queue_canceled ∧
    (complete_destination_cleanup now₂ c₂
        (reschedule_destination_cleanup now₁ err next c₁ j)).queue_canceled_total
        = j.queue_canceled_total + (counters_or_zero c₁).queue_canceled
          + (counters_or_zero c₂).queue_canceled ∧
    j.rows_cleared_total ≤ (reschedule_destination_cleanup now₁ err next c₁ j).rows_cleared_total ∧
    j.mappings_disabled_total
        ≤ (reschedule_destination_cleanup now₁ err next c₁ j).mappings_disabled_total ∧
    j.queue_canceled_total ≤ (reschedule_destination_cleanup now₁ err next c₁ j).queue_canceled_total ∧
    (reschedule_destination_cleanup now₁ err next c₁ j).queue_canceled_total
        ≤ (complete_destination_cleanup now₂ c₂
            (reschedule_destination_cleanup now₁ err next c₁ j)).queue_canceled_total := by
  obtain ⟨ha, hb, hc⟩ := h₁
  obtain ⟨ha₂, hb₂, hc₂⟩ := h₂
  refine ⟨rfl, rfl, rfl, rfl, ?_, ?_, ?_, ?_⟩
  · exact le_add_of_nonneg_right ha
  · exact le_add_of_nonneg_right hb
  · exact le_add_of_nonneg_right hc
  · exact le_add_of_nonneg_right hc₂

/-- Witness for C9: the spec's scenario — 3 of 5 cancellations done before a
failure, the remaining 2 on the completing attempt; the total converges to 5
and never decreases. -/
theorem c9_cleanup_counters_cumulative_witness :
    (reschedule_destination_cleanup 10 "partial" 40 (some sample_counters₁)
        sample_cleanup_job).queue_canceled_total = 0 + 3 ∧
    (complete_destination_cleanup 50 (some sample_counters₂)
        (reschedule_destination_cleanup 10 "partial" 40 (some sample_counters₁)
          sample_cleanup_job)).queue_canceled_total = 0 + 3 + 2 :=
  ⟨(c9_cleanup_counters_cumulative sample_cleanup_job 10 50 40 "partial"
      (some sample_counters₁) (some sample_counters₂) (by decide) (by decide)).2.2.1,
   (c9_cleanup_counters_cumulative sample_cleanup_job 10 50 40 "partial"
      (some sample_counters₁) (some sample_counters₂) (by decide) (by decide)).2.2.2.1⟩

/-- The scan loop of `get_cheapest_project` started after its first
iteration: from an incumbent `b` it ends on an incumbent attaining the
maximum remaining quota among `b` and the rest of the list. -/
theorem cheapest_fold_spec (cfg : Config) (usage : String → ℤ) :
    ∀ (l : List String) (b : String),
      ∃ m, l.foldl (cheapest_step cfg usage) (some b, get_quota_remaining cfg (usage b))
            = (some m, get_quota_remaining cfg (usage m)) ∧
        (m = b ∨ m ∈ l) ∧
        get_quota_remaining cfg (usage b) ≤ get_quota_remaining cfg (usage m) ∧
        ∀ q ∈ l, get_quota_remaining cfg (usage q) ≤ get_quota_remaining cfg (usage m) := by
  intro l
  induction l with
  | nil => exact fun b => ⟨b, rfl, Or.inl rfl, le_refl _, by simp⟩
  | cons a t ih =>
    intro b
    by_cases hgt : get_quota_remaining cfg (usage a) > get_quota_remaining cfg (usage b)
    · have hstep : cheapest_step cfg usage (some b, get_quota_remaining cfg (usage b)) a
          = (some a, get_quota_remaining cfg (usage a)) := by
        simp [cheapest_step, hgt]
      obtain ⟨m, hm, hmem, hle, hmax⟩ := ih a
      refine ⟨m, by simpa [hstep] using hm, ?_, le_trans (le_of_lt hgt) hle, ?_⟩
      · rcases hmem with h1 | h1
        · exact Or.inr (by simp [h1])
        · exact Or.inr (List.mem_cons_of_mem _ h1)
      · intro q hq
        rcases List.mem_cons.mp hq with h1 | h1
        · subst h1; exact hle
        · exact hmax q h1
    · have hstep : cheapest_step cfg usage (some b, get_quota_remaining cfg (usage b)) a
          = (some b, get_quota_remaining cfg (usage b)) := by
        simp [cheapest_step, hgt]
      obtain ⟨m, hm, hmem, hle, hmax⟩ := ih b
      refine ⟨m, by simpa [hstep] using hm, ?_, hle, ?_⟩
      · rcases hmem with h1 | h1
        · exact Or.inl h1
        · exact Or.inr (List.mem_cons_of_mem _ h1)
      · intro q hq
        rcases List.mem_cons.mp hq with h1 | h1
        · subst h1; exact le_trans (not_lt.mp hgt) hle
        · exact hmax q h1

/-- **C8** — On a non-empty pool list, `get_cheapest_project` returns a pool
with the most remaining budget (remaining at least one upload's unit cost),
and returns `none` exactly when every pool's remaining budget is below one
upload's unit cost (equivalently: when the best remaining budget is). -/
theorem c8_cheapest_pool_argmax (cfg : Config) (projects : List String)
    (usage : String → ℤ) (hne : projects ≠ []) :
    (∀ p, get_cheapest_project cfg projects usage = some p →
        p ∈ projects ∧
        (∀ q ∈ projects,
          get_quota_remaining cfg (usage q) ≤ get_quota_remaining cfg (usage p)) ∧
        cfg.yt_quota_units_per_upload ≤ get_quota_remaining cfg (usage p)) ∧
    (get_cheapest_project cfg projects usage = none ↔
        ∀ q ∈ projects,
          get_quota_remaining cfg (usage q) < cfg.yt_quota_units_per_upload) := by
  obtain ⟨a, t, rfl⟩ := List.exists_cons_of_ne_nil hne
  have hstep0 : cheapest_step cfg usage (none, -1) a
      = (some a, get_quota_remaining cfg (usage a)) := by
    have hpos0 : get_quota_remaining cfg (usage a) > -1 :=
      lt_of_lt_of_le (by norm_num) (le_max_left 0 _)
    simp [cheapest_step, hpos0]
  obtain ⟨m, hm, hmem, hle, hmax⟩ := cheapest_fold_spec cfg usage t a
  have hfold : (a :: t).foldl (cheapest_step cfg usage) (none, -1)
      = (some m, get_quota_remaining cfg (usage m)) := by
    rw [List.foldl_cons, hstep0, hm]
  have hmmem : m ∈ a :: t := by
    rcases hmem with h1 | h1
    · simp [h1]
    · exact List.mem_cons_of_mem _ h1
  have hmax₂ : ∀ q ∈ a :: t,
      get_quota_remaining cfg (usage q) ≤ get_quota_remaining cfg (usage m) := by
    intro q hq
    rcases List.mem_cons.mp hq with h1 | h1
    · subst h1; exact hle
    · exact hmax q h1
  have hproj : get_cheapest_project cfg (a :: t) usage
      = if get_quota_remaining cfg (usage m) < cfg.yt_quota_units_per_upload
        then none else some m := by
    simp [get_cheapest_project, hfold]
  constructor
  · intro p hp
    rw [hproj] at hp
    by_cases hlt : get_quota_remaining cfg (usage m) < cfg.yt_quota_units_per_upload
    · rw [if_pos hlt] at hp
      exact absurd hp (by simp)
    · rw [if_neg hlt] at hp
      obtain rfl : m = p := Option.some.inj hp
      exact ⟨hmmem, hmax₂, not_lt.mp hlt⟩
  · rw [hproj]
    constructor
    · intro hnone
      by_cases hlt : get_quota_remaining cfg (usage m) < cfg.yt_quota_units_per_upload
      · exact fun q hq => lt_of_le_of_lt (hmax₂ q hq) hlt
      · rw [if_neg hlt] at hnone
        exact absurd hnone (by simp)
    · intro hall
      rw [if_pos (hall m hmmem)]

/-- Witness for C8: the spec's scenario — pool `"A"` has 0 remaining and
`"B"` has budget, so `"B"` is returned and its remaining budget dominates;
and with both pools fully spent, the allocator returns `none`. -/
theorem c8_cheapest_pool_argmax_witness :
    get_cheapest_project sample_cfg ["A", "B"] sample_usage = some "B" ∧
    (∀ q ∈ ["A", "B"],
      get_quota_remaining sample_cfg (sample_usage q)
        ≤ get_quota_remaining sample_cfg (sample_usage "B")) ∧
    get_cheapest_project sample_cfg ["A", "B"] (fun _ => 8000) = none := by
  have hB : get_cheapest_project sample_cfg ["A", "B"] sample_usage = some "B" := by decide
  refine ⟨hB, ?_, ?_⟩
  · exact ((c8_cheapest_pool_argmax sample_cfg ["A", "B"] sample_usage
      (by decide)).1 "B" hB).2.1
  · exact (c8_cheapest_pool_argmax sample_cfg ["A", "B"] (fun _ => 8000)
      (by decide)).2.mpr (by decide)

/-- When the daily cap is already reached, `_next_slot_time` returns the next
local day's first configured slot, and that instant is strictly in the
future. -/
theorem next_slot_time_at_cap (cfg : Config) (now : ℤ) (u : Nat)
    (hm : Nat × Nat) (rest : List (Nat × Nat))
    (hcap : UPLOADS_PER_DAY_PER_DEST ≤ u)
    (hcons : cfg.upload_slots_local = hm :: rest) :
    next_slot_time cfg now u = slot_utc cfg (local_day cfg now + 1) hm ∧
    now < next_slot_time cfg now u := by
  have hnot : ¬ (u < min (slot_times_for_day cfg (local_day cfg now)).length
      UPLOADS_PER_DAY_PER_DEST) := by
    intro hlt
    exact absurd (lt_of_lt_of_le hlt (min_le_right _ _)) (not_lt.mpr hcap)
  have hslots : slot_times_for_day cfg (local_day cfg now + 1)
      = slot_utc cfg (local_day cfg now + 1) hm
          :: rest.map (slot_utc cfg (local_day cfg now + 1)) := by
    rw [slot_times_for_day, hcons, List.map_cons]
  have heq : next_slot_time cfg now u = slot_utc cfg (local_day cfg now + 1) hm := by
    rw [next_slot_time, dif_neg hnot, hslots, List.headD_cons]
  have hfloor : now + cfg.tz_offset_seconds < (local_day cfg now + 1) * 86400 := by
    have h1 := Int.ediv_add_emod (now + cfg.tz_offset_seconds) 86400
    have h2 := Int.emod_lt_of_pos (now + cfg.tz_offset_seconds)
      (show (0:ℤ) < 86400 by norm_num)
    rw [local_day]
    linarith
  have hnn : (0:ℤ) ≤ (hm.1 : ℤ) * 3600 + (hm.2 : ℤ) * 60 := by positivity
  refine ⟨heq, ?_⟩
  rw [heq, slot_utc]
  linarith

/-- **C7** — A job that reaches slot/cap enforcement while its destination's
`uploads_today` already equals the daily cap is deferred, not failed: the
pipeline calls `requeue_at` with the next local day's first slot, leaving the
job `QUEUED` with `next_attempt_after` at that slot, `retry_count` unchanged,
and no upload call issued. -/
theorem c7_cap_defers_to_next_day_slot (cfg : Config) (env : PipelineEnv)
    (st₀ : StoreState) (rd : SheetRowData) (hm : Nat × Nat) (rest : List (Nat × Nat))
    (hlock : env.lock_ok = true)
    (hrow : env.row_data = some rd)
    (hurl : rd.source_url ≠ "")
    (hdest : st₀.job.dest_account_id ≠ "")
    (hatt : rd.upload_attempts < MAX_UPLOAD_ATTEMPTS)
    (hidem : ¬ (rd.content_hash ≠ "" ∧
        check_idempotency st₀.idem_keys
          (idem_key_of rd.content_hash st₀.job.dest_account_id) = true))
    (hdup : ¬ (env.dup_check_ok = true ∧ rd.content_hash ≠ "" ∧
        rd.content_hash ∈ env.recent_hashes))
    (hcap : st₀.daily_rows.length = UPLOADS_PER_DAY_PER_DEST)
    (hcons : cfg.upload_slots_local = hm :: rest) :
    (process_upload_job cfg env st₀).store.job
        = requeue_at env.now (slot_utc cfg (local_day cfg env.now + 1) hm)
            (mark_in_progress env.now st₀.job) ∧
    (process_upload_job cfg env st₀).store.job.status = "QUEUED" ∧
    (process_upload_job cfg env st₀).store.job.next_attempt_after
        = some (slot_utc cfg (local_day cfg env.now + 1) hm) ∧
    (process_upload_job cfg env st₀).store.job.retry_count = st₀.job.retry_count ∧
    (process_upload_job cfg env st₀).upload_called = false := by
  obtain ⟨hslot, hlt⟩ := next_slot_time_at_cap cfg env.now st₀.daily_rows.length
    hm rest hcap.ge hcons
  simp [process_upload_job, mark_in_progress, requeue_at, hlock, hrow, hurl, hdest,
    hidem, hdup, not_le.mpr hatt, hslot, hslot ▸ hlt]

/-- Witness for C7: a destination already at its daily cap of 2 defers the
job to the next local day's first slot (midnight of day 1, i.e. 86400). -/
theorem c7_cap_defers_to_next_day_slot_witness :
    (process_upload_job sample_cfg sample_env capped_store).store.job
        = requeue_at 0 (slot_utc sample_cfg (local_day sample_cfg 0 + 1) (0, 0))
            (mark_in_progress 0 sample_job) ∧
    (process_upload_job sample_cfg sample_env capped_store).store.job.status
        = "QUEUED" ∧
    (process_upload_job sample_cfg sample_env capped_store).store.job.retry_count
        = sample_job.retry_count :=
  ⟨(c7_cap_defers_to_next_day_slot sample_cfg sample_env capped_store sample_row
      (0, 0) [] (by decide) (by decide) (by decide) (by decide) (by decide)
      (by decide) (by decide) (by decide) (by decide)).1,
   (c7_cap_defers_to_next_day_slot sample_cfg sample_env capped_store sample_row
      (0, 0) [] (by decide) (by decide) (by decide) (by decide) (by decide)
      (by decide) (by decide) (by decide) (by decide)).2.1,
   (c7_cap_defers_to_next_day_slot sample_cfg sample_env capped_store sample_row
      (0, 0) [] (by decide) (by decide) (by decide) (by decide) (by decide)
      (by decide) (by decide) (by decide) (by decide)).2.2.2.1⟩

/-- **C1** (amended: non-empty content fingerprint) — Once the idempotency
key of (fingerprint, destination) is recorded completed, a pipeline run for a
job carrying that key with a non-empty fingerprint issues no upload call and
marks the job `COMPLETED` (`skipped_idempotency` — a skip, not an error).
The job row's own prior status is arbitrary, so this holds in particular when
a crash right after the upload left the job's status not updated. -/
theorem c1_recorded_key_skips_upload (cfg : Config) (env : PipelineEnv)
    (st₀ : StoreState) (rd : SheetRowData)
    (hlock : env.lock_ok = true)
    (hrow : env.row_data = some rd)
    (hurl : rd.source_url ≠ "")
    (hdest : st₀.job.dest_account_id ≠ "")
    (hatt : rd.upload_attempts < MAX_UPLOAD_ATTEMPTS)
    (hhash : rd.content_hash ≠ "")
    (hkey : idem_key_of rd.content_hash st₀.job.dest_account_id ∈ st₀.idem_keys) :
    (process_upload_job cfg env st₀).upload_called = false ∧
    (process_upload_job cfg env st₀).store.job.status = "COMPLETED" ∧
    (process_upload_job cfg env st₀).status = "skipped_idempotency" := by
  have hck : check_idempotency st₀.idem_keys
      (idem_key_of rd.content_hash st₀.job.dest_account_id) = true := by
    simp [check_idempotency, hkey]
  simp [process_upload_job, mark_in_progress, mark_completed, hlock, hrow, hurl,
    hdest, not_le.mpr hatt, hhash, hck]

/-- Witness for C1: a crash-recovered `QUEUED` job whose key is already
recorded is skipped without an upload call. -/
theorem c1_recorded_key_skips_upload_witness :
    (process_upload_job sample_cfg sample_env recorded_key_store).upload_called = false ∧
    (process_upload_job sample_cfg sample_env recorded_key_store).store.job.status
      = "COMPLETED" ∧
    (process_upload_job sample_cfg sample_env recorded_key_store).status
      = "skipped_idempotency" :=
  c1_recorded_key_skips_upload sample_cfg sample_env recorded_key_store sample_row
    (by decide) (by decide) (by decide) (by decide) (by decide) (by decide) (by decide)

/-- Counterexample to C1 as stated (for **every** key): with an **empty**
content fingerprint the key `":d"` is recorded after a successful upload
(`record_idempotency`), yet the pipeline's check is guarded by
`expected_hash and ...`, so a subsequent run carrying that same key uploads
again — a second upload call is issued. -/
theorem c1_empty_fingerprint_uploads_again :
    record_idempotency (idem_key_of "" "d") [] = empty_hash_store.idem_keys ∧
    (process_upload_job sample_cfg empty_hash_env empty_hash_store).upload_called = true ∧
    (process_upload_job sample_cfg empty_hash_env empty_hash_store).status
      = "uploaded" := by
  decide

/-- **C4** (code evaluated at the failing input) — When every quota pool is
exhausted, the pipeline calls `mark_failed` with `max_retries = 0`: the job
becomes terminal `FAILED` with `retry_count` incremented and is never due for
dispatch again — it is **not** re-queued for a later attempt, contradicting
the claim that quota exhaustion is a retryable deferral that consumes no
retry slot. -/
theorem c4_quota_exhausted_terminally_fails :
    (process_upload_job sample_cfg sample_env quota_exhausted_store).error
      = "youtube_quota_exhausted" ∧
    (process_upload_job sample_cfg sample_env quota_exhausted_store).upload_called
      = false ∧
    (process_upload_job sample_cfg sample_env quota_exhausted_store).store.job.status
      = "FAILED" ∧
    (process_upload_job sample_cfg sample_env quota_exhausted_store).store.job.retry_count
      = 1 ∧
    job_due 10000000
      (process_upload_job sample_cfg sample_env quota_exhausted_store).store.job
      = false := by
  decide

/-- **C5** (code evaluated at the failing input) — On a cross-window
duplicate hash match the pipeline calls `mark_failed` with the default
`max_retries = 3`: the job is re-queued (`QUEUED`, `retry_count = 1`,
backoff `next_attempt_after = 2`) and becomes due again — not the terminal,
non-retryable skip the claim states. -/
theorem c5_duplicate_is_requeued_not_terminal :
    (process_upload_job sample_cfg dup_env sample_store).status = "error" ∧
    (process_upload_job sample_cfg dup_env sample_store).error
      = "duplicate_for_destination" ∧
    (process_upload_job sample_cfg dup_env sample_store).store.job.status = "QUEUED" ∧
    (process_upload_job sample_cfg dup_env sample_store).store.job.retry_count = 1 ∧
    (process_upload_job sample_cfg dup_env sample_store).store.job.next_attempt_after
      = some 2 ∧
    job_due 2 (process_upload_job sample_cfg dup_env sample_store).store.job = true := by
  decide

/-- **C6** (code evaluated at the failing inputs) — With a missing source url
(or a missing destination id) the pipeline calls `mark_failed` with the
default `max_retries = 3`: the job is re-queued with backoff and becomes due
again, rather than becoming terminal `FAILED` as the claim states. -/
theorem c6_missing_preconditions_requeued_not_failed :
    (process_upload_job sample_cfg missing_url_env sample_store).error
      = "no_source_url" ∧
    (process_upload_job sample_cfg missing_url_env sample_store).store.job.status
      = "QUEUED" ∧
    (process_upload_job sample_cfg missing_url_env sample_store).store.job.retry_count
      = 1 ∧
    (process_upload_job sample_cfg missing_url_env sample_store).store.job.next_attempt_after
      = some 2 ∧
    job_due 2 (process_upload_job sample_cfg missing_url_env sample_store).store.job
      = true ∧
    (process_upload_job sample_cfg sample_env missing_dest_store).error
      = "no_destination_mapped" ∧
    (process_upload_job sample_cfg sample_env missing_dest_store).store.job.status
      = "QUEUED" ∧
    (process_upload_job sample_cfg sample_env missing_dest_store).store.job.retry_count
      = 1 := by
  decide

/-- **C10** (implicit) — With an empty configured pool list (single-project
mode), `get_cheapest_project` returns the fixed id `"default"` for **every**
usage state, without any budget/unit-cost comparison: it never reports
exhaustion, even when the recorded usage of `"default"` meets or exceeds the
margin-adjusted daily limit. -/
theorem c10_empty_pools_default (cfg : Config) (usage : String → ℤ) :
    get_cheapest_project cfg [] usage = some "default" := rfl

end YtAutomation
